import Mathlib

/-!
Verification of the gbf-wiki image uploader's asset-synchronization core
(`src/images.py`), as a shallow embedding in Lean 4.

The embedding translates the relevant Python functions into pure Lean
functions.  Network and wiki I/O are made explicit: HTTP responses become an
`attempt ↦ HttpResp` oracle, the wiki becomes an explicit page-text state plus
a static environment (hash-search results, backlink structure), and every wiki
mutation is recorded in an action trace.  The SHA-1 primitive (an external
library call in the source) is abstracted as a `hash` parameter; the code only
ever compares digests for equality.
-/

namespace GbfUploader

/-! ## String helpers mirroring the Python primitives used by `images.py` -/

/-- Python `str.capitalize()`: first character uppercased, the rest
lowercased. -/
def pyCapitalize (s : String) : String :=
  match s.data with
  | [] => ""
  | c :: cs => String.mk (c.toUpper :: cs.map Char.toLower)

/-- Python `str.lower()` (ASCII case folding, as used on the wiki titles
involved here). -/
def pyLower (s : String) : String :=
  String.mk (s.data.map Char.toLower)

/-- Python `in` on strings: `needle in hay` (substring containment),
used for the `'/archive/' in url` test. -/
def strContains (hay needle : String) : Bool :=
  decide (needle.data <:+: hay.data)

/-- Python `str.strip()`: whitespace removed from both ends. -/
def pyStrip (s : String) : String :=
  String.mk (((s.data.dropWhile Char.isWhitespace).reverse.dropWhile
    Char.isWhitespace).reverse)

/-- Python `str.startswith(pre)`. -/
def pyStartsWith (s pre : String) : Bool :=
  pre.data.isPrefixOf s.data

/-- The only `str.replace` call sites in the embedded code are
`.replace("_", " ")`, which is a character-wise substitution. -/
def replaceUnd (s : String) : String :=
  String.mk (s.data.map (fun c => if c = '_' then ' ' else c))

/-- Python `s[n:]` (drop the first `n` characters). -/
def strDrop (s : String) (n : Nat) : String :=
  String.mk (s.data.drop n)

/-! ## `WikiImages.get_image` (src/images.py lines 82-139)

A byte body is a `List Nat`.  The network is an oracle mapping the attempt
index to the response observed on that attempt; `HttpResp.err` stands for a
`requests.exceptions.RequestException` (transport-level error). -/

/-- One observed HTTP interaction: a status code with a response body, or a
transport-level error. -/
inductive HttpResp
  | resp (status : Nat) (body : List Nat)
  | err
deriving DecidableEq

/-- The 4-tuple `get_image` returns: `(success, sha1, size, io)`.  The Python
`io` slot holds either a byte buffer or the literal `False`; we model it as
`Option (List Nat)` with `none` for `False`. -/
structure FetchRes where
  success : Bool
  sha1 : String
  size : Nat
  payload : Option (List Nat)
deriving DecidableEq

/-- A `get_image` run together with its observable behavior: the number of
HTTP requests issued and the sleeps performed between retries. -/
structure FetchTrace where
  result : FetchRes
  attempts : Nat
  waits : List Nat
deriving DecidableEq

/-- The failure tuple `(False, "", 0, False)` of `get_image`. -/
def fetchFail : FetchRes := ⟨false, "", 0, none⟩

/-- The HTTP statuses `get_image` retries (line 117 of src/images.py). -/
def retryableStatuses : List Nat := [407, 429, 500, 502, 503, 504]

/-- The loop body of `get_image`: `attempt` is the Python loop variable,
`fuel` the number of loop iterations still available (the wrapper passes
`maxRetries + 1`, mirroring `range(max_retries + 1)`), `made`/`waits`
accumulate the requests issued and sleeps performed so far.  `hash` abstracts
`hashlib.sha1(...).hexdigest()`. -/
def get_image_go (hash : List Nat → String) (responses : Nat → HttpResp)
    (maxRetries : Nat) : Nat → Nat → Nat → List Nat → FetchTrace
  | _, 0, made, waits => ⟨fetchFail, made, waits⟩
  | attempt, fuel + 1, made, waits =>
    match responses attempt with
    | .resp s body =>
      if s = 200 then ⟨⟨true, hash body, body.length, some body⟩, made + 1, waits⟩
      else if s = 404 then ⟨fetchFail, made + 1, waits⟩
      else if s ∈ retryableStatuses then
        if attempt < maxRetries then
          get_image_go hash responses maxRetries (attempt + 1) fuel (made + 1)
            (waits ++ [2 ^ attempt])
        else ⟨fetchFail, made + 1, waits⟩
      else ⟨fetchFail, made + 1, waits⟩
    | .err =>
      if attempt < maxRetries then
        get_image_go hash responses maxRetries (attempt + 1) fuel (made + 1)
          (waits ++ [2 ^ attempt])
      else ⟨fetchFail, made + 1, waits⟩

/-- The entry point `WikiImages.get_image(url, max_retries)`: the loop
`for attempt in range(max_retries + 1)` starting at attempt 0 with no
requests issued yet. -/
def get_image (hash : List Nat → String) (responses : Nat → HttpResp)
    (maxRetries : Nat) : FetchTrace :=
  get_image_go hash responses maxRetries 0 (maxRetries + 1) 0 []

/-! ## The wiki model

Page texts form an explicit association list (`PageMap`); the remaining wiki
observations `check_image` makes — the hash+size file search, re-fetching a
URL, the redirect backlink lists — are a static environment `WikiEnv`.
Every wiki mutation is logged as an `Act`. -/

/-- Page texts: the head-most binding for a title wins, so `savePage`
shadows.  A title with no binding is a page that does not exist. -/
abbrev PageMap := List (String × String)

/-- Current text of a page, `none` when the page does not exist. -/
def getText (st : PageMap) (title : String) : Option String :=
  (st.find? (fun e => e.1 == title)).map (·.2)

/-- The effect of `page.save(text, ...)`: (over)write a page's text. -/
def savePage (st : PageMap) (title text : String) : PageMap :=
  (title, text) :: st

/-- The effect of `page.move(newTitle, ...)`: the description page's text moves to the new
title and a `#REDIRECT` to the new title is left at the old one (mwclient's
default move behavior). -/
def movePage (st : PageMap) (oldTitle newTitle : String) : PageMap :=
  let oldText := (getText st oldTitle).getD ""
  savePage (savePage st newTitle oldText) oldTitle ("#REDIRECT [[" ++ newTitle ++ "]]")

/-- mwclient's `page.redirect` flag: the page is a redirect page. -/
def isRedirectPage (st : PageMap) (title : String) : Bool :=
  pyStartsWith ((getText st title).getD "") "#REDIRECT"

/-- One wiki API interaction performed by the resolver.  `fetch` is the only
read we log (claim C1 talks about it); `save`, `move` and `upload` are the
wiki writes. -/
inductive Act
  | fetch (url : String)
  | save (title text : String)
  | move (oldTitle newTitle : String)
  | upload (filename : String)
deriving DecidableEq

/-- Whether an action writes to the wiki. -/
def Act.isWrite : Act → Bool
  | .fetch _ => false
  | .save _ _ => true
  | .move _ _ => true
  | .upload _ => true

/-- Outcome of `self.wiki.upload(...)`: result `Success`-like, result
`Warning`, or an exception escaping the call. -/
inductive UploadResp
  | ok
  | warning
  | raises
deriving DecidableEq

/-- A file returned by `wiki.allimages(minsize=size, maxsize=size, sha1=sha1)`:
its full title (`name`, with the `File:` prefix), its namespace-less title
(`page_title`), and its storage URL (`imageinfo['url']`). -/
structure WikiFile where
  name : String
  page_title : String
  url : String
deriving DecidableEq

/-- The static part of the wiki/network world `check_image` queries:
the hash+size search result for the call at hand, the `get_image` outcome per
URL as the triple `(success, sha1, size)`, the redirect-filtered backlink
lists, and the upload API's response per file name. -/
structure WikiEnv where
  search : List WikiFile
  fetch : String → Bool × String × Nat
  backlinksOf : String → List String
  uploadResp : String → UploadResp

/-! ## `WikiImages.check_redirect` (src/images.py lines 329-348) -/

/-- The operation `check_redirect(redirect_to, redirect_from)`: underscores are normalized
to spaces, the source page's current text (empty when the page does not
exist) is compared byte-for-byte against the redirect wikitext, and the page
is saved only on a difference.  Returns the new state and the writes
performed. -/
def check_redirect (st : PageMap) (redirect_to redirect_from : String) :
    PageMap × List Act :=
  let rf := replaceUnd redirect_from
  let rt := replaceUnd redirect_to
  let page_text :=
    match getText st rf with
    | some t => t
    | none => ""
  let new_text := "#REDIRECT [[" ++ rt ++ "]]"
  if page_text ≠ new_text then (savePage st rf new_text, [Act.save rf new_text])
  else (st, [])

/-! ## `WikiImages.investigate_backlinks` (src/images.py lines 294-308)

The Python function recurses unconditionally into each backlink's own
redirect backlinks, with no cycle guard.  We embed it with an explicit
recursion-depth budget `fuel`: `none` means the Python call stack would have
exceeded `fuel` nested calls, which on a cycle happens for every budget. -/

/-- The per-backlink body of `investigate_backlinks` (src/images.py lines
299-306): read the backlink's current text; when it is a file redirect that
does not already point at `target`, rewrite it. -/
def backlink_step (st : PageMap) (b target : String) : PageMap × List Act :=
  let backlink_text := (getText st b).getD ""
  if pyStartsWith backlink_text "#REDIRECT [[File:" then
    let new_text := "#REDIRECT [[" ++ target ++ "]]"
    if new_text ≠ backlink_text then
      (savePage st b new_text, [Act.save b new_text])
    else (st, [])
  else (st, [])

/-- The body of `investigate_backlinks` after the underscore normalization of
its entry: walk the backlink list, apply `backlink_step` to each backlink,
and recurse (one call-depth deeper, via `recur`) into that backlink's own
redirect backlinks. -/
def inv_list (env : WikiEnv)
    (recur : PageMap → List String → String → String → Option (PageMap × List Act)) :
    PageMap → List String → String → String → Option (PageMap × List Act)
  | st, [], _, _ => some (st, [])
  | st, b :: rest, source, target =>
    let depths := env.backlinksOf b
    let step := backlink_step st b target
    match recur step.1 depths b target with
    | none => none
    | some (st2, acts2) =>
      match inv_list env recur st2 rest source target with
      | none => none
      | some (st3, acts3) => some (st3, step.2 ++ acts2 ++ acts3)

/-- Recursion-depth-bounded walk: a nested call needs one unit of `fuel`, and
a call whose backlink list is empty returns without recursing at any
budget. -/
def investigate_backlinks_go (env : WikiEnv) :
    Nat → PageMap → List String → String → String → Option (PageMap × List Act)
  | 0, st, bls, _, _ =>
    match bls with
    | [] => some (st, [])
    | _ :: _ => none
  | fuel + 1, st, bls, source, target =>
    inv_list env (investigate_backlinks_go env fuel) st bls source target

/-- The entry point `investigate_backlinks(backlinks, source, target)`: normalizes
underscores in `source` and `target` and walks the list.  (The recursive
calls inside re-normalize, which is a no-op because the replacement is
idempotent and `source` only feeds log output.) -/
def investigate_backlinks (env : WikiEnv) (fuel : Nat) (st : PageMap)
    (backlinks : List String) (source target : String) :
    Option (PageMap × List Act) :=
  investigate_backlinks_go env fuel st backlinks
    (replaceUnd source) (replaceUnd target)

/-! ## The duplicate-name pattern of `check_image`

`re.match(r'^File:(Summon|Weapon) ([a-z]+) (\d+)\.([a-z]+)$', dupe.name)`
and `re.search(r'\d+', file_name)`, embedded as explicit parsers over the
character list.  Both regex character classes exclude the delimiter that
follows them, so greedy maximal munch is exact. -/

/-- The regex class `[a-z]`. -/
def isLowerAlpha (c : Char) : Bool := 'a' ≤ c && c ≤ 'z'

/-- The regex class `\d`. -/
def isDigitCh (c : Char) : Bool := '0' ≤ c && c ≤ '9'

/-- Strip a literal off the front of a character list. -/
def stripLit (lit l : List Char) : Option (List Char) :=
  if lit.isPrefixOf l then some (l.drop lit.length) else none

/-- Parse `([a-z]+) (\d+)\.([a-z]+)$` after a kind literal has been
consumed, yielding (section, digit string, extension). -/
def parseDupeTail (l : List Char) : Option (String × String × String) :=
  let (sec, r1) := l.span isLowerAlpha
  if sec.isEmpty then none
  else
    match r1 with
    | ' ' :: r2 =>
      let (digs, r3) := r2.span isDigitCh
      if digs.isEmpty then none
      else
        match r3 with
        | '.' :: r4 =>
          let (ext, r5) := r4.span isLowerAlpha
          if ext.isEmpty || !r5.isEmpty then none
          else some (String.mk sec, String.mk digs, String.mk ext)
        | _ => none
    | _ => none

/-- The full anchored match on the single duplicate's title, yielding
(kind, section, digit string, extension); `none` when the title does not fit
`^File:(Summon|Weapon) ([a-z]+) (\d+)\.([a-z]+)$`. -/
def parseDupeName (s : String) : Option (String × String × String × String) :=
  match stripLit "File:".data s.data with
  | none => none
  | some r0 =>
    match stripLit "Summon ".data r0 with
    | some r1 => (parseDupeTail r1).map (fun t => ("Summon", t))
    | none =>
      match stripLit "Weapon ".data r0 with
      | some r1 => (parseDupeTail r1).map (fun t => ("Weapon", t))
      | none => none

/-- The search `re.search` for `\d+` in a string: the first maximal run of digits. -/
def firstDigits : List Char → Option (List Char)
  | [] => none
  | c :: rest =>
    if isDigitCh c then some (c :: rest.takeWhile isDigitCh)
    else firstDigits rest

/-- Python `int(...)` on a digit string. -/
def digitsToNat (l : List Char) : Nat :=
  l.foldl (fun n c => n * 10 + (c.toNat - 48)) 0

/-! ## `WikiImages.check_image` (src/images.py lines 209-296) -/

/-- Outcome of `check_image`: Python `False` (task skipped), Python `True`
(blob uploaded), or a returned file-name string (an existing file now carries
the content). -/
inductive CheckResult
  | skipped
  | uploaded
  | resolvedName (name : String)
deriving DecidableEq

/-- The replacement URL `check_image` re-fetches for a lower-numbered
duplicate, built from the duplicate's own regex groups (lines 246-256). -/
def dupe_fetch_url (kind sec digits ext : String) : String :=
  "http://prd-game-a-granbluefantasy.akamaized.net/assets_en/img/sp/assets/" ++
    (if kind = "Summon" then "summon" else "weapon") ++ "/" ++ sec ++ "/" ++
    digits ++ "." ++ ext

/-- Prepend earlier actions to a resolver outcome. -/
def prependActs (pre : List Act) :
    Option (CheckResult × PageMap × List Act) →
    Option (CheckResult × PageMap × List Act)
  | none => none
  | some (r, st, acts) => some (r, st, pre ++ acts)

/-- The single-duplicate move path of `check_image` (lines 263-268): record
the duplicate's redirect backlinks, move it to the canonical title (leaving a
redirect), repair the backlinks, and return the canonical name. -/
def move_dupe (env : WikiEnv) (fuel : Nat) (st : PageMap)
    (dupeName fileName : String) : Option (CheckResult × PageMap × List Act) :=
  let backlinks := env.backlinksOf dupeName
  let st1 := movePage st dupeName fileName
  match investigate_backlinks env fuel st1 backlinks dupeName fileName with
  | none => none
  | some (st2, acts2) =>
    some (.resolvedName (strDrop fileName 5), st2, Act.move dupeName fileName :: acts2)

/-- One iteration of the zero-duplicates alias loop (lines 271-280): when the
alias title exists and is not a redirect, move it to the canonical title and
repair its backlinks. -/
def move_other_name (env : WikiEnv) (fuel : Nat) (fileName : String)
    (acc : Option (PageMap × List Act)) (other : String) :
    Option (PageMap × List Act) :=
  match acc with
  | none => none
  | some (st, acts) =>
    let pageName := "File:" ++ other
    if (getText st pageName).isSome && !isRedirectPage st pageName then
      let backlinks := env.backlinksOf pageName
      let st1 := movePage st pageName fileName
      match investigate_backlinks env fuel st1 backlinks pageName fileName with
      | none => none
      | some (st2, acts2) =>
        some (st2, acts ++ Act.move pageName fileName :: acts2)
    else some (st, acts)

/-- The resolver `check_image(name, sha1, size, io, other_names)`.  `fuel` bounds the
recursion depth of the backlink repairs; `none` models a Python run that does
not return (unbounded redirect recursion) or that raises (the
`re.search(...).group(0)` call on a digitless canonical name). -/
def check_image (env : WikiEnv) (fuel : Nat) (st : PageMap)
    (name sha1 : String) (size : Nat) (other_names : List String) :
    Option (CheckResult × PageMap × List Act) :=
  let true_name := pyCapitalize name
  let file_name := "File:" ++ true_name
  let duplicates := env.search.filter (fun f => !strContains f.url "/archive/")
  if 1 < duplicates.length then some (.skipped, st, [])
  else
    match duplicates with
    | [dupe] =>
      if pyLower (pyStrip dupe.page_title) = pyLower (replaceUnd true_name) then
        some (.resolvedName (strDrop file_name 5), st, [])
      else
        match parseDupeName dupe.name with
        | some (kind, sec, digits, ext) =>
          match firstDigits file_name.data with
          | none => none
          | some fdigits =>
            if digitsToNat digits.data < digitsToNat fdigits then
              let url := dupe_fetch_url kind sec digits ext
              let fr := env.fetch url
              if fr.1 = true ∧ fr.2.1 = sha1 ∧ fr.2.2 = size then
                let cr := check_redirect st dupe.name file_name
                some (.resolvedName (strDrop dupe.name 5), cr.1, Act.fetch url :: cr.2)
              else prependActs [Act.fetch url] (move_dupe env fuel st dupe.name file_name)
            else move_dupe env fuel st dupe.name file_name
        | none => move_dupe env fuel st dupe.name file_name
    | _ =>
      match other_names.foldl (move_other_name env fuel file_name) (some (st, [])) with
      | none => none
      | some (stU, actsU) =>
        match env.uploadResp true_name with
        | .raises => some (.skipped, stU, actsU ++ [Act.upload true_name])
        | .warning => some (.skipped, stU, actsU ++ [Act.upload true_name])
        | .ok => some (.uploaded, stU, actsU ++ [Act.upload true_name])

/-! ## Task derivation in `WikiImages.check_sp_asset` (src/images.py 1139-1244)

One descriptor-table entry `paths[section] = [ext, suffix, tokens, labels,
categories]` becomes a `SectionParams`; the loop body over
`(section, params)` for one `asset_id` becomes `tasks_for_section`.  The
descriptor tables keep `tokens` and `labels` parallel (Python indexes
`params[3][version]` with `version < len(params[2])`), so the embedded
`getD ... ""` never falls back to its default on the live tables below. -/

/-- One descriptor-table entry: `[params[0], ..., params[4]]`. -/
structure SectionParams where
  ext : String
  suffix : String
  tokens : List String
  labels : List String
  cats : List String
deriving DecidableEq

/-- One derived download task (the dict appended to `download_tasks`). -/
structure DlTask where
  url : String
  true_name : String
  other_names : List String
  categories : List String
deriving DecidableEq

/-- The CDN root shared by every generated URL. -/
def cdnBase : String := "http://prd-game-a-granbluefantasy.akamaized.net/assets_en/"

/-- The alias (`other_names`) computation of the generic per-version loop
(src/images.py lines 1219-1237): the unsuffixed friendly alias is appended
when the section has fewer than two variants or the variant's label is the
primary marker `'A'`; in multi-variant sections the labeled alias is always
appended, with a separating space exactly when the canonical suffix is empty
and the label is not. -/
def other_names_for (asset_name : String) (p : SectionParams) (version : Nat) :
    List String :=
  let versions := p.tokens.length
  let label := p.labels.getD version ""
  (if versions < 2 ∨ label = "A" then
    [asset_name ++ p.suffix ++ "." ++ p.ext]
  else []) ++
  (if 1 < versions then
    [asset_name ++ p.suffix ++
      ((if p.suffix = "" ∧ label ≠ "" then " " else "") ++ label) ++ "." ++ p.ext]
  else [])

/-- One iteration of the generic per-version loop: URL (with the `wsp` → cjs
and `f_skin` → `f/skin` path exceptions), canonical name, aliases,
categories. -/
def generic_task (asset_type asset_name asset_id sectionKey : String)
    (p : SectionParams) (version : Nat) : DlTask :=
  let token := p.tokens.getD version ""
  let url :=
    if sectionKey = "wsp" then
      cdnBase ++ "img/sp/cjs/" ++ asset_id ++ token ++ "." ++ p.ext
    else if sectionKey = "f_skin" then
      cdnBase ++ "img/sp/assets/" ++ asset_type ++ "/f/skin/" ++ asset_id ++
        token ++ "." ++ p.ext
    else
      cdnBase ++ "img/sp/assets/" ++ asset_type ++ "/" ++ sectionKey ++ "/" ++
        asset_id ++ token ++ "." ++ p.ext
  let section_label := if sectionKey = "wsp" then "sp" else sectionKey
  { url := url
    true_name := pyCapitalize asset_type ++ " " ++ section_label ++ " " ++
      asset_id ++ token ++ "." ++ p.ext
    other_names := other_names_for asset_name p version
    categories := p.cats }

/-- The melee-weapon sprite special case (src/images.py lines 1141-1171):
two explicit variants `('_1', '1')`, `('_2', '2')` at the cjs path. -/
def melee_tasks (asset_type asset_name asset_id : String) (p : SectionParams) :
    List DlTask :=
  [("_1", "1"), ("_2", "2")].map fun v =>
    { url := cdnBase ++ "img/sp/cjs/" ++ asset_id ++ v.1 ++ "." ++ p.ext
      true_name := pyCapitalize asset_type ++ " sp " ++ asset_id ++ " " ++
        v.2 ++ "." ++ p.ext
      other_names := [asset_name ++ " sprite" ++ v.2 ++ "." ++ p.ext]
      categories := p.cats }

/-- The body of `for section, params in paths.items()` for one `asset_id`:
the melee special case preempts (`continue`) the generic per-version loop. -/
def tasks_for_section (asset_type : String) (weapon_type : Option String)
    (asset_name asset_id sectionKey : String) (p : SectionParams) : List DlTask :=
  if sectionKey = "wsp" ∧ asset_type = "weapon" ∧ weapon_type = some "melee" then
    melee_tasks asset_type asset_name asset_id p
  else
    (List.range p.tokens.length).map
      (generic_task asset_type asset_name asset_id sectionKey p)

/-- All download tasks one `asset_id` contributes, over a whole descriptor
table (Python dicts iterate in insertion order). -/
def tasks_for_paths (asset_type : String) (weapon_type : Option String)
    (asset_name asset_id : String) (paths : List (String × SectionParams)) :
    List DlTask :=
  paths.flatMap fun sp => tasks_for_section asset_type weapon_type asset_name asset_id sp.1 sp.2

/-! ## The live descriptor tables fed to `check_sp_asset`

These are the five `paths` dictionaries whose entries reach the generic
derivation loop: `check_character`, `check_summon`, `check_weapon`,
`check_npc` and `check_artifact` (src/images.py lines 828-1010), transcribed
entry for entry. -/

/-- The `paths` descriptor table of `check_character` (src/images.py). -/
def character_paths : List (String × SectionParams) := [
  ("zoom",
    { ext := "png", suffix := "",
      tokens :=
        ["_01", "_01_1", "_01_101", "_01_102", "_01_103", "_02", "_02_1", "_02_101", "_02_102",
         "_02_103", "_03", "_03_1", "_03_101", "_03_102", "_03_103", "_04", "_81", "_82", "_88",
         "_91", "_91_0", "_91_1", "_01_01", "_01_02", "_01_03", "_01_04", "_01_05", "_01_06",
         "_02_01", "_02_02", "_02_03", "_02_04", "_02_05", "_02_06", "_03_01", "_03_02",
         "_03_03", "_03_04", "_03_05", "_03_06"],
      labels :=
        ["A", "A2", "A101", "A102", "A103", "B", "B2", "B101", "B102", "B103", "C", "C2",
         "C101", "C102", "C103", "D", "ST", "ST2", "ST8", "EX", "EX1", "EX2", "A01", "A02",
         "A03", "A04", "A05", "A06", "B01", "B02", "B03", "B04", "B05", "B06", "C01", "C02",
         "C03", "C04", "C05", "C06"],
      cats := ["Character Images", "Full Character Images"] }),
  ("f_skin",
    { ext := "jpg", suffix := "_tall",
      tokens :=
        ["_01_s1", "_01_s2", "_01_s3", "_01_s4", "_01_s5", "_01_s6", "_01_101_s1", "_01_101_s2",
         "_01_101_s3", "_01_101_s4", "_01_101_s5", "_01_101_s6", "_01_102_s1", "_01_102_s2",
         "_01_102_s3", "_01_102_s4", "_01_102_s5", "_01_102_s6", "_01_103_s1", "_01_103_s2",
         "_01_103_s3", "_01_103_s4", "_01_103_s5", "_01_103_s6", "_02_s1", "_02_s2", "_02_s3",
         "_02_s4", "_02_s5", "_02_s6", "_02_1_s1", "_02_1_s2", "_02_1_s3", "_02_1_s4",
         "_02_1_s5", "_02_1_s6", "_02_101_s1", "_02_101_s2", "_02_101_s3", "_02_101_s4",
         "_02_101_s5", "_02_101_s6", "_02_102_s1", "_02_102_s2", "_02_102_s3", "_02_102_s4",
         "_02_102_s5", "_02_102_s6", "_02_103_s1", "_02_103_s2", "_02_103_s3", "_02_103_s4",
         "_02_103_s5", "_02_103_s6", "_03_s1", "_03_s2", "_03_s3", "_03_s4", "_03_s5", "_03_s6",
         "_03_101_s1", "_03_101_s2", "_03_101_s3", "_03_101_s4", "_03_101_s5", "_03_101_s6",
         "_03_102_s1", "_03_102_s2", "_03_102_s3", "_03_102_s4", "_03_102_s5", "_03_102_s6",
         "_03_103_s1", "_03_103_s2", "_03_103_s3", "_03_103_s4", "_03_103_s5", "_03_103_s6",
         "_04_s1", "_04_s2", "_04_s3", "_04_s4", "_04_s5", "_04_s6", "_81_s1", "_81_s2",
         "_81_s3", "_81_s4", "_81_s5", "_81_s6", "_82_s1", "_82_s2", "_82_s3", "_82_s4",
         "_82_s5", "_82_s6", "_91_s1", "_91_s2", "_91_s3", "_91_s4", "_91_s5", "_91_s6",
         "_01_01", "_01_02", "_01_03", "_01_04", "_01_05", "_01_06", "_02_01", "_02_02",
         "_02_03", "_02_04", "_02_05", "_02_06", "_03_01", "_03_02", "_03_03", "_03_04",
         "_03_05", "_03_06"],
      labels :=
        ["A_fire", "A_water", "A_earth", "A_wind", "A_light", "A_dark", "A101_fire",
         "A101_water", "A101_earth", "A101_wind", "A101_light", "A101_dark", "A102_fire",
         "A102_water", "A102_earth", "A102_wind", "A102_light", "A102_dark", "A103_fire",
         "A103_water", "A103_earth", "A103_wind", "A103_light", "A103_dark", "B_fire",
         "B_water", "B_earth", "B_wind", "B_light", "B_dark", "B2_fire", "B2_water", "B2_earth",
         "B2_wind", "B2_light", "B2_dark", "B101_fire", "B101_water", "B101_earth", "B101_wind",
         "B101_light", "B101_dark", "B102_fire", "B102_water", "B102_earth", "B102_wind",
         "B102_light", "B102_dark", "B103_fire", "B103_water", "B103_earth", "B103_wind",
         "B103_light", "B103_dark", "C_fire", "C_water", "C_earth", "C_wind", "C_light",
         "C_dark", "C101_fire", "C101_water", "C101_earth", "C101_wind", "C101_light",
         "C101_dark", "C102_fire", "C102_water", "C102_earth", "C102_wind", "C102_light",
         "C102_dark", "C103_fire", "C103_water", "C103_earth", "C103_wind", "C103_light",
         "C103_dark", "D_fire", "D_water", "D_earth", "D_wind", "D_light", "D_dark", "ST_fire",
         "ST_water", "ST_earth", "ST_wind", "ST_light", "ST_dark", "ST2_fire", "ST2_water",
         "ST2_earth", "ST2_wind", "ST2_light", "ST2_dark", "EX_fire", "EX_water", "EX_earth",
         "EX_wind", "EX_light", "EX_dark", "A01_fire", "A01_water", "A01_earth", "A01_wind",
         "A01_light", "A01_dark", "A02_fire", "A02_water", "A02_earth", "A02_wind", "A02_light",
         "A02_dark", "A03_fire", "A03_water", "A03_earth", "A03_wind", "A03_light", "A03_dark"],
      cats := ["Character Images", "Tall Skin Character Images"] }),
  ("f",
    { ext := "jpg", suffix := "_tall",
      tokens :=
        ["_01", "_01_1", "_01_101", "_01_102", "_01_103", "_02", "_02_1", "_02_101", "_02_102",
         "_02_103", "_03", "_03_1", "_03_101", "_03_102", "_03_103", "_04", "_81", "_82", "_91",
         "_91_0", "_91_1", "_01_01", "_01_02", "_01_03", "_01_04", "_01_05", "_01_06", "_02_01",
         "_02_02", "_02_03", "_02_04", "_02_05", "_02_06", "_03_01", "_03_02", "_03_03",
         "_03_04", "_03_05", "_03_06"],
      labels :=
        ["A", "A2", "A101", "A102", "A103", "B", "B2", "B101", "B102", "B103", "C", "C2",
         "C101", "C102", "C103", "D", "ST", "ST2", "EX", "EX1", "EX2", "A01", "A02", "A03",
         "A04", "A05", "A06", "B01", "B02", "B03", "B04", "B05", "B06", "C01", "C02", "C03",
         "C04", "C05", "C06"],
      cats := ["Character Images", "Tall Character Images"] }),
  ("m",
    { ext := "jpg", suffix := "_icon",
      tokens :=
        ["_01", "_01_1", "_01_101", "_01_102", "_01_103", "_02", "_02_1", "_02_101", "_02_102",
         "_02_103", "_03", "_03_1", "_03_101", "_03_102", "_03_103", "_04", "_81", "_82", "_88",
         "_91", "_91_0", "_91_1", "_01_01", "_01_02", "_01_03", "_01_04", "_01_05", "_01_06",
         "_02_01", "_02_02", "_02_03", "_02_04", "_02_05", "_02_06", "_03_01", "_03_02",
         "_03_03", "_03_04", "_03_05", "_03_06"],
      labels :=
        ["A", "A2", "A101", "A102", "A103", "B", "B2", "B101", "B102", "B103", "C", "C2",
         "C101", "C102", "C103", "D", "ST", "ST2", "ST8", "EX", "EX1", "EX2", "A01", "A02",
         "A03", "A04", "A05", "A06", "B01", "B02", "B03", "B04", "B05", "B06", "C01", "C02",
         "C03", "C04", "C05", "C06"],
      cats := ["Character Images", "Icon Character Images"] }),
  ("s",
    { ext := "jpg", suffix := "_square",
      tokens :=
        ["_01", "_01_1", "_01_101", "_01_102", "_01_103", "_02", "_02_1", "_02_101", "_02_102",
         "_02_103", "_03", "_03_1", "_03_101", "_03_102", "_03_103", "_04", "_81", "_82", "_88",
         "_91", "_91_0", "_91_1", "_01_01", "_01_02", "_01_03", "_01_04", "_01_05", "_01_06",
         "_02_01", "_02_02", "_02_03", "_02_04", "_02_05", "_02_06", "_03_01", "_03_02",
         "_03_03", "_03_04", "_03_05", "_03_06"],
      labels :=
        ["A", "A2", "A101", "A102", "A103", "B", "B2", "B101", "B102", "B103", "C", "C2",
         "C101", "C102", "C103", "D", "ST", "ST2", "ST8", "EX", "EX1", "EX2", "A01", "A02",
         "A03", "A04", "A05", "A06", "B01", "B02", "B03", "B04", "B05", "B06", "C01", "C02",
         "C03", "C04", "C05", "C06"],
      cats := ["Character Images", "Square Character Images"] }),
  ("sd",
    { ext := "png", suffix := "_SD",
      tokens :=
        ["_01", "_01_1", "_01_101", "_01_102", "_01_103", "_02", "_02_1", "_02_101", "_02_102",
         "_02_103", "_03", "_03_1", "_03_101", "_03_102", "_03_103", "_04", "_81", "_82", "_91",
         "_91_0", "_91_1"],
      labels :=
        ["A", "A2", "A101", "A102", "A103", "B", "B2", "B101", "B102", "B103", "C", "C2",
         "C101", "C102", "C103", "D", "ST", "ST2", "EX", "EX1", "EX2"],
      cats := ["Character Images", "Sprite Character Images"] }),
  ("cutin_special",
    { ext := "jpg", suffix := "_cutin",
      tokens :=
        ["_01", "_01_1", "_01_101", "_01_102", "_01_103", "_02", "_02_1", "_02_101", "_02_102",
         "_02_103", "_03", "_03_1", "_03_101", "_03_102", "_03_103", "_04", "_81", "_82", "_91",
         "_91_0", "_91_1"],
      labels :=
        ["A", "A2", "A101", "A102", "A103", "B", "B2", "B101", "B102", "B103", "C", "C2",
         "C101", "C102", "C103", "D", "ST", "ST2", "EX", "EX1", "EX2"],
      cats := ["Character Images", "Cutin Character Images"] }),
  ("raid_chain",
    { ext := "jpg", suffix := "_chain",
      tokens :=
        ["_01", "_01_1", "_01_101", "_01_102", "_01_103", "_02", "_02_1", "_02_101", "_02_102",
         "_02_103", "_03", "_03_1", "_03_101", "_03_102", "_03_103", "_04", "_81", "_82", "_91",
         "_91_0", "_91_1"],
      labels :=
        ["A", "A2", "A101", "A102", "A103", "B", "B2", "B101", "B102", "B103", "C", "C2",
         "C101", "C102", "C103", "D", "ST", "ST2", "EX", "EX1", "EX2"],
      cats := ["Character Images", "Chain Burst Character Images"] }),
  ("t",
    { ext := "png", suffix := "_babyl",
      tokens :=
        ["_01", "_01_1", "_01_101", "_01_102", "_01_103", "_02", "_02_1", "_02_101", "_02_102",
         "_02_103", "_03", "_03_1", "_03_101", "_03_102", "_03_103", "_04", "_81", "_82", "_91",
         "_91_0", "_91_1"],
      labels :=
        ["A", "A2", "A101", "A102", "A103", "B", "B2", "B101", "B102", "B103", "C", "C2",
         "C101", "C102", "C103", "D", "ST", "ST2", "EX", "EX1", "EX2"],
      cats := ["Character Images", "Babyl Character Images"] }),
  ("detail",
    { ext := "png", suffix := "_detail",
      tokens :=
        ["_01", "_01_1", "_01_101", "_01_102", "_01_103", "_02", "_02_1", "_02_101", "_02_102",
         "_02_103", "_03", "_03_1", "_03_101", "_03_102", "_03_103", "_04", "_81", "_82", "_91",
         "_91_0", "_91_1"],
      labels :=
        ["A", "A2", "A101", "A102", "A103", "B", "B2", "B101", "B102", "B103", "C", "C2",
         "C101", "C102", "C103", "D", "ST", "ST2", "EX", "EX1", "EX2"],
      cats := ["Character Images", "Detail Character Images"] }),
  ("raid_normal",
    { ext := "jpg", suffix := "_raid",
      tokens :=
        ["_01", "_01_1", "_01_101", "_01_102", "_01_103", "_02", "_02_1", "_02_101", "_02_102",
         "_02_103", "_03", "_03_1", "_03_101", "_03_102", "_03_103", "_04", "_81", "_82", "_91",
         "_91_0", "_91_1"],
      labels :=
        ["A", "A2", "A101", "A102", "A103", "B", "B2", "B101", "B102", "B103", "C", "C2",
         "C101", "C102", "C103", "D", "ST", "ST2", "EX", "EX1", "EX2"],
      cats := ["Character Images", "Raid Character Images"] }),
  ("quest",
    { ext := "jpg", suffix := "_quest",
      tokens :=
        ["_01", "_01_1", "_01_101", "_01_102", "_01_103", "_02", "_02_1", "_02_101", "_02_102",
         "_02_103", "_03", "_03_1", "_03_101", "_03_102", "_03_103", "_04", "_81", "_82", "_91",
         "_91_0", "_91_1"],
      labels :=
        ["A", "A2", "A101", "A102", "A103", "B", "B2", "B101", "B102", "B103", "C", "C2",
         "C101", "C102", "C103", "D", "ST", "ST2", "EX", "EX1", "EX2"],
      cats := ["Character Images", "Quest Character Images"] })]

/-- The `paths` descriptor table of `check_summon` (src/images.py). -/
def summon_paths : List (String × SectionParams) := [
  ("b",
    { ext := "png", suffix := "",
      tokens :=
        ["", "_02", "_03", "_04"],
      labels :=
        ["A", "B", "C", "D"],
      cats := ["Summon Images", "Full Summon Images"] }),
  ("ls",
    { ext := "jpg", suffix := "_tall",
      tokens :=
        ["", "_02", "_03", "_04"],
      labels :=
        ["A", "B", "C", "D"],
      cats := ["Summon Images", "Tall Summon Images"] }),
  ("m",
    { ext := "jpg", suffix := "_icon",
      tokens :=
        ["", "_02", "_03", "_04"],
      labels :=
        ["A", "B", "C", "D"],
      cats := ["Summon Images", "Icon Summon Images"] }),
  ("s",
    { ext := "jpg", suffix := "_square",
      tokens :=
        ["", "_02", "_03", "_04"],
      labels :=
        ["A", "B", "C", "D"],
      cats := ["Summon Images", "Square Summon Images"] }),
  ("party_main",
    { ext := "jpg", suffix := "_party_main",
      tokens :=
        ["", "_02", "_03", "_04"],
      labels :=
        ["A", "B", "C", "D"],
      cats := ["Summon Images", "Party Main Summon Images"] }),
  ("party_sub",
    { ext := "jpg", suffix := "_party_sub",
      tokens :=
        ["", "_02", "_03", "_04"],
      labels :=
        ["A", "B", "C", "D"],
      cats := ["Summon Images", "Party Sub Summon Images"] }),
  ("detail",
    { ext := "png", suffix := "_detail",
      tokens :=
        ["", "_02", "_03", "_04"],
      labels :=
        ["A", "B", "C", "D"],
      cats := ["Summon Images", "Detail Summon Images"] })]

/-- The `paths` descriptor table of `check_weapon` (src/images.py). -/
def weapon_paths : List (String × SectionParams) := [
  ("b",
    { ext := "png", suffix := "",
      tokens :=
        ["", "_02", "_03"],
      labels :=
        ["A", "B", "C"],
      cats := ["Weapon Images", "Full Weapon Images"] }),
  ("ls",
    { ext := "jpg", suffix := "_tall",
      tokens :=
        ["", "_02", "_03"],
      labels :=
        ["A", "B", "C"],
      cats := ["Weapon Images", "Tall Weapon Images"] }),
  ("m",
    { ext := "jpg", suffix := "_icon",
      tokens :=
        ["", "_02", "_03"],
      labels :=
        ["A", "B", "C"],
      cats := ["Weapon Images", "Icon Weapon Images"] }),
  ("s",
    { ext := "jpg", suffix := "_square",
      tokens :=
        ["", "_02", "_03"],
      labels :=
        ["A", "B", "C"],
      cats := ["Weapon Images", "Square Weapon Images"] }),
  ("wsp",
    { ext := "png", suffix := "_sprite",
      tokens :=
        ["", "_02", "_03"],
      labels :=
        ["A", "B", "C"],
      cats := ["Weapon Images", "Weapon Sprites"] })]

/-- The `paths` descriptor table of `check_npc` (src/images.py). -/
def npc_paths : List (String × SectionParams) := [
  ("zoom",
    { ext := "png", suffix := "",
      tokens :=
        ["_01"],
      labels :=
        [""],
      cats := ["NPC Images", "Full NPC Images"] }),
  ("m",
    { ext := "jpg", suffix := "_icon",
      tokens :=
        ["_01"],
      labels :=
        [""],
      cats := ["NPC Images", "Icon NPC Images"] })]

/-- The `paths` descriptor table of `check_artifact` (src/images.py). -/
def artifact_paths : List (String × SectionParams) := [
  ("hdr",
    { ext := "png", suffix := "",
      tokens :=
        [""],
      labels :=
        [""],
      cats := ["Artifact Images", "Full Artifact Images"] }),
  ("m",
    { ext := "jpg", suffix := "_icon",
      tokens :=
        [""],
      labels :=
        [""],
      cats := ["Artifact Images", "Icon Artifact Images"] }),
  ("s",
    { ext := "jpg", suffix := "_square",
      tokens :=
        [""],
      labels :=
        [""],
      cats := ["Artifact Images", "Square Artifact Images"] })]

/-- The descriptor tables processed by `check_sp_asset`. -/
def live_tables : List (List (String × SectionParams)) :=
  [character_paths, summon_paths, weapon_paths, npc_paths, artifact_paths]

/-! ## Lemmas about `get_image` -/

/-- A response on which `get_image` retries: a transport-level error or a
status in the retryable list. -/
def RetryResp (resp : HttpResp) : Prop :=
  resp = .err ∨ ∃ s body, resp = .resp s body ∧ s ∈ retryableStatuses

/-- A non-final retryable attempt sleeps `2 ^ attempt` and moves on to the
next attempt. -/
theorem get_image_go_retry_step (hash : List Nat → String)
    (responses : Nat → HttpResp) (mr : Nat) {attempt fuel made : Nat}
    {waits : List Nat} (hlt : attempt < mr) (hr : RetryResp (responses attempt)) :
    get_image_go hash responses mr attempt (fuel + 1) made waits =
      get_image_go hash responses mr (attempt + 1) fuel (made + 1)
        (waits ++ [2 ^ attempt]) := by
  rcases hr with h | ⟨s, body, h, hs⟩
  · simp [get_image_go, h, hlt]
  · simp only [retryableStatuses, List.mem_cons, List.not_mem_nil, or_false] at hs
    rcases hs with rfl | rfl | rfl | rfl | rfl | rfl <;>
      simp [get_image_go, h, hlt, retryableStatuses]

/-- A retryable response on the final attempt returns the failure tuple. -/
theorem get_image_go_retry_last (hash : List Nat → String)
    (responses : Nat → HttpResp) (mr : Nat) {fuel made : Nat}
    {waits : List Nat} (hr : RetryResp (responses mr)) :
    get_image_go hash responses mr mr (fuel + 1) made waits =
      ⟨fetchFail, made + 1, waits⟩ := by
  rcases hr with h | ⟨s, body, h, hs⟩
  · simp [get_image_go, h]
  · simp only [retryableStatuses, List.mem_cons, List.not_mem_nil, or_false] at hs
    rcases hs with rfl | rfl | rfl | rfl | rfl | rfl <;>
      simp [get_image_go, h, retryableStatuses]

/-- Any `get_image_go` run that reports failure returns exactly the tuple
`(False, "", 0, False)`. -/
theorem get_image_go_fail (hash : List Nat → String)
    (responses : Nat → HttpResp) (mr : Nat) :
    ∀ fuel attempt made waits,
      (get_image_go hash responses mr attempt fuel made waits).result.success = false →
      (get_image_go hash responses mr attempt fuel made waits).result = fetchFail := by
  intro fuel
  induction fuel with
  | zero => intro attempt made waits _; rfl
  | succ fuel ih =>
    intro attempt made waits h
    rcases hresp : responses attempt with ⟨s, body⟩ | _
    · rw [get_image_go, hresp] at h ⊢
      by_cases h200 : s = 200
      · simp [h200] at h
      · by_cases h404 : s = 404
        · simp [h200, h404]
        · by_cases hmem : s ∈ retryableStatuses
          · by_cases hlt : attempt < mr
            · simp only [h200, h404, hmem, hlt, if_true, if_false, if_neg,
                ite_true, ite_false] at h ⊢
              exact ih _ _ _ (by simpa [h200, h404, hmem, hlt] using h)
            · simp [h200, h404, hmem, hlt]
          · simp [h200, h404, hmem]
    · rw [get_image_go, hresp] at h ⊢
      by_cases hlt : attempt < mr
      · simp only [hlt, if_true, ite_true] at h ⊢
        exact ih _ _ _ (by simpa [hlt] using h)
      · simp [hlt]

/-- Claim C3: `get_image` at the default retry bound 3 treats every status
as specified: a 404 on the first attempt fails after exactly one request
with no retry; any other non-200, non-retryable status fails after exactly
one request; when every attempt is retryable (407/429/500/502/503/504 or a
transport error) it issues 4 requests with exponentially doubling sleeps
1s, 2s, 4s and then fails; and 503 three times followed by 200 succeeds
with the digest of the 200 body after the same three sleeps. -/
theorem get_image_status_policy (hash : List Nat → String)
    (responses : Nat → HttpResp) :
    (∀ body, responses 0 = .resp 404 body →
      get_image hash responses 3 = ⟨fetchFail, 1, []⟩) ∧
    (∀ s body, responses 0 = .resp s body → s ≠ 200 → s ≠ 404 →
      s ∉ retryableStatuses → get_image hash responses 3 = ⟨fetchFail, 1, []⟩) ∧
    ((∀ i, i ≤ 3 → RetryResp (responses i)) →
      get_image hash responses 3 = ⟨fetchFail, 4, [1, 2, 4]⟩) ∧
    ((∀ i, i < 3 → ∃ body, responses i = .resp 503 body) →
      ∀ body, responses 3 = .resp 200 body →
      get_image hash responses 3 =
        ⟨⟨true, hash body, body.length, some body⟩, 4, [1, 2, 4]⟩) := by
  refine ⟨?_, ?_, ?_, ?_⟩
  · intro body h
    simp [get_image, get_image_go, h]
  · intro s body h h200 h404 hmem
    simp [get_image, get_image_go, h, h200, h404, hmem]
  · intro h
    rw [get_image,
      get_image_go_retry_step hash responses 3 (by decide) (h 0 (by decide)),
      get_image_go_retry_step hash responses 3 (by decide) (h 1 (by decide)),
      get_image_go_retry_step hash responses 3 (by decide) (h 2 (by decide)),
      get_image_go_retry_last hash responses 3 (h 3 (by decide))]
    decide
  · intro h body h200
    have hstep : ∀ i, i < 3 → RetryResp (responses i) := by
      intro i hi
      obtain ⟨b, hb⟩ := h i hi
      exact Or.inr ⟨503, b, hb, by decide⟩
    rw [get_image,
      get_image_go_retry_step hash responses 3 (by decide) (hstep 0 (by decide)),
      get_image_go_retry_step hash responses 3 (by decide) (hstep 1 (by decide)),
      get_image_go_retry_step hash responses 3 (by decide) (hstep 2 (by decide))]
    simp [get_image_go, h200]

/-- Witness for C3: 503 three times then 200 at the concrete body `[5, 6]`
succeeds with 4 requests and sleeps 1s, 2s, 4s. -/
theorem get_image_status_policy_witness :
    get_image (fun _ => "D")
      (fun i => if i < 3 then .resp 503 [] else .resp 200 [5, 6]) 3 =
      ⟨⟨true, "D", 2, some [5, 6]⟩, 4, [1, 2, 4]⟩ :=
  (get_image_status_policy (fun _ => "D")
      (fun i => if i < 3 then .resp 503 [] else .resp 200 [5, 6])).2.2.2
    (fun i hi => ⟨[], by interval_cases i <;> rfl⟩) [5, 6] rfl

/-- Claim C10: every failure path of `get_image` — 404, a non-retryable
status, exhaustion of retries on a retryable status, or exhaustion of
retries on transport errors — returns exactly the tuple
`(False, "", 0, False)`: empty digest, size 0, and `False` in the payload
slot. -/
theorem get_image_failure_tuple (hash : List Nat → String)
    (responses : Nat → HttpResp) (maxRetries : Nat)
    (h : (get_image hash responses maxRetries).result.success = false) :
    (get_image hash responses maxRetries).result = fetchFail :=
  get_image_go_fail hash responses maxRetries _ _ _ _ h

/-- Witness for C10: a 404 response yields exactly the failure tuple. -/
theorem get_image_failure_tuple_witness :
    (get_image (fun _ => "D") (fun _ => .resp 404 []) 3).result = fetchFail :=
  get_image_failure_tuple (fun _ => "D") (fun _ => .resp 404 []) 3 (by decide)

/-! ## Lemmas about the page state -/

/-- Reading back a freshly saved page yields the saved text. -/
theorem getText_savePage_self (st : PageMap) (t x : String) :
    getText (savePage st t x) t = some x := by
  simp [getText, savePage, List.find?]

/-- Saving one page leaves every other page's text unchanged. -/
theorem getText_savePage_other (st : PageMap) (t x p : String) (h : t ≠ p) :
    getText (savePage st t x) p = getText st p := by
  have hb : (t == p) = false := beq_eq_false_iff_ne.mpr h
  simp [getText, savePage, List.find?, hb]

/-- A save either leaves a page's text alone or replaces it with the saved
text. -/
theorem getText_savePage_cases (st : PageMap) (t x p : String) :
    getText (savePage st t x) p = getText st p ∨
      getText (savePage st t x) p = some x := by
  by_cases h : t = p
  · subst h; exact Or.inr (getText_savePage_self st t x)
  · exact Or.inl (getText_savePage_other st t x p h)

/-- Claim C4: `check_redirect(T, S)` writes exactly when the source page's
current text (empty when the page does not exist) differs from the exact
redirect wikitext `#REDIRECT [[T]]` — so the first call performs that one
write exactly when the text differs — and an immediately repeated call with
the external state unchanged performs zero writes. -/
theorem check_redirect_idempotent (st : PageMap)
    (redirect_to redirect_from : String) :
    (check_redirect st redirect_to redirect_from).2 =
      (if ((getText st (replaceUnd redirect_from)).getD "") ≠
          ("#REDIRECT [[" ++ replaceUnd redirect_to ++ "]]") then
        [Act.save (replaceUnd redirect_from)
          ("#REDIRECT [[" ++ replaceUnd redirect_to ++ "]]")]
      else []) ∧
    (check_redirect (check_redirect st redirect_to redirect_from).1
        redirect_to redirect_from).2 = [] := by
  have hmatch : ∀ stx : PageMap,
      (match getText stx (replaceUnd redirect_from) with
        | some t => t
        | none => "") = (getText stx (replaceUnd redirect_from)).getD "" := by
    intro stx
    cases getText stx (replaceUnd redirect_from) <;> rfl
  constructor
  · rw [check_redirect]
    simp only [hmatch]
    by_cases h : (getText st (replaceUnd redirect_from)).getD "" =
        "#REDIRECT [[" ++ replaceUnd redirect_to ++ "]]"
    · simp [h]
    · simp [h]
  · rw [check_redirect, check_redirect]
    simp only [hmatch]
    by_cases h : (getText st (replaceUnd redirect_from)).getD "" =
        "#REDIRECT [[" ++ replaceUnd redirect_to ++ "]]"
    · simp [h]
    · simp only [h, ne_eq, not_false_iff, if_true, ite_true, ite_not]
      simp [getText_savePage_self]

/-! ## Branch behavior of `check_image` -/

/-- Dropping the 5-character `File:` namespace prefix recovers the bare
title. -/
theorem strDrop_file (s : String) : strDrop ("File:" ++ s) 5 = s := by
  have hlit : "File:".data = ['F', 'i', 'l', 'e', ':'] := by decide
  have hdata : ("File:" ++ s).data = 'F' :: 'i' :: 'l' :: 'e' :: ':' :: s.data := by
    rw [String.data_append, hlit]
    rfl
  rw [strDrop, hdata]
  show String.mk s.data = s
  cases s
  rfl

/-- Claim C2: whenever the hash+size search yields two or more non-archived
matches, `check_image` returns `False` (the task is skipped), leaves the
wiki state untouched, and performs no wiki interaction at all — in
particular zero writes. -/
theorem check_image_ambiguous_skips (env : WikiEnv) (fuel : Nat)
    (st : PageMap) (name sha1 : String) (size : Nat) (other_names : List String)
    (h : 1 < (env.search.filter (fun f => !strContains f.url "/archive/")).length) :
    check_image env fuel st name sha1 size other_names =
      some (.skipped, st, []) := by
  rw [check_image]
  simp only [h, if_true, ite_true]

/-- Witness for C2: two identical non-archived matches are skipped with no
writes. -/
theorem check_image_ambiguous_skips_witness :
    check_image
      { search :=
          [⟨"File:A.png", "A.png", "https://gbf.wiki/images/a.png"⟩,
           ⟨"File:B.png", "B.png", "https://gbf.wiki/images/b.png"⟩]
        fetch := fun _ => (false, "", 0)
        backlinksOf := fun _ => []
        uploadResp := fun _ => .ok } 1 [] "A.png" "D" 7 [] =
      some (.skipped, [], []) :=
  check_image_ambiguous_skips _ 1 [] "A.png" "D" 7 [] (by decide)

/-- Claim C5: with exactly one non-archived match whose title already equals
the canonical name up to case and space/underscore normalization,
`check_image` returns the canonical file name and performs zero wiki
writes. -/
theorem check_image_already_correct (env : WikiEnv) (fuel : Nat)
    (st : PageMap) (name sha1 : String) (size : Nat)
    (other_names : List String) (dupe : WikiFile)
    (hdup : env.search.filter (fun f => !strContains f.url "/archive/") = [dupe])
    (htitle : pyLower (pyStrip dupe.page_title) =
      pyLower (replaceUnd (pyCapitalize name))) :
    check_image env fuel st name sha1 size other_names =
      some (.resolvedName (pyCapitalize name), st, []) := by
  rw [check_image]
  simp only [hdup, List.length_cons, List.length_nil, htitle, if_true, ite_true,
    Nat.lt_irrefl, if_false, ite_false, strDrop_file]

/-- Witness for C5: a single matching file already at the canonical title. -/
theorem check_image_already_correct_witness :
    check_image
      { search := [⟨"File:Summon b 1010200300.png", "Summon b 1010200300.png",
          "https://gbf.wiki/images/s.png"⟩]
        fetch := fun _ => (false, "", 0)
        backlinksOf := fun _ => []
        uploadResp := fun _ => .ok } 1 [] "Summon b 1010200300.png" "D" 7 [] =
      some (.resolvedName "Summon b 1010200300.png", [], []) :=
  check_image_already_correct _ 1 [] "Summon b 1010200300.png" "D" 7 []
    ⟨"File:Summon b 1010200300.png", "Summon b 1010200300.png",
      "https://gbf.wiki/images/s.png"⟩ (by decide) (by decide)

/-- Claim C1: for an existing non-archived wiki file
`Summon b 1010200300.png` carrying digest `D` and size `Z`, resolving the
newly derived canonical name `Summon b 1010200301.png` with the identical
`(D, Z)` re-fetches the URL derived from the existing file's own id,
confirms the digest and size match, creates a redirect from the new
higher-numbered canonical name to the existing file, and returns the
existing name — with no upload and no move. -/
theorem check_image_lower_id_redirect (env : WikiEnv) (fuel : Nat)
    (st : PageMap) (D : String) (Z : Nat) (other_names : List String)
    (u : String)
    (hsearch : env.search =
      [⟨"File:Summon b 1010200300.png", "Summon b 1010200300.png", u⟩])
    (harch : strContains u "/archive/" = false)
    (hfetch : env.fetch
      "http://prd-game-a-granbluefantasy.akamaized.net/assets_en/img/sp/assets/summon/b/1010200300.png" =
      (true, D, Z))
    (habsent : getText st "File:Summon b 1010200301.png" = none) :
    check_image env fuel st "Summon b 1010200301.png" D Z other_names =
      some (.resolvedName "Summon b 1010200300.png",
        savePage st "File:Summon b 1010200301.png"
          "#REDIRECT [[File:Summon b 1010200300.png]]",
        [Act.fetch
          "http://prd-game-a-granbluefantasy.akamaized.net/assets_en/img/sp/assets/summon/b/1010200300.png",
         Act.save "File:Summon b 1010200301.png"
          "#REDIRECT [[File:Summon b 1010200300.png]]"]) := by
  have hcap : pyCapitalize "Summon b 1010200301.png" = "Summon b 1010200301.png" := by
    decide
  have htitle : ¬ (pyLower (pyStrip "Summon b 1010200300.png") =
      pyLower (replaceUnd "Summon b 1010200301.png")) := by decide
  have hparse : parseDupeName "File:Summon b 1010200300.png" =
      some ("Summon", "b", "1010200300", "png") := by decide
  have hfirst : firstDigits ("File:" ++ "Summon b 1010200301.png").data =
      some "1010200301".data := by decide
  have hnum : digitsToNat "1010200300".data < digitsToNat "1010200301".data := by
    decide
  have hurl : dupe_fetch_url "Summon" "b" "1010200300" "png" =
      "http://prd-game-a-granbluefantasy.akamaized.net/assets_en/img/sp/assets/summon/b/1010200300.png" := by
    decide
  rw [check_image, hsearch]
  simp only [List.filter_cons, List.filter_nil, harch, Bool.not_false, if_true,
    ite_true, List.length_cons, List.length_nil, Nat.lt_irrefl, if_false,
    ite_false, hcap, htitle, hparse, hfirst, hurl]
  rw [if_pos hnum, hfetch]
  simp only [and_self, if_true, ite_true, if_pos trivial]
  rw [check_redirect]
  have hrepl1 : replaceUnd ("File:" ++ "Summon b 1010200301.png") =
      "File:Summon b 1010200301.png" := by decide
  have hrepl2 : replaceUnd "File:Summon b 1010200300.png" =
      "File:Summon b 1010200300.png" := by decide
  simp only [hrepl1, hrepl2, habsent]
  have hdrop : strDrop "File:Summon b 1010200300.png" 5 =
      "Summon b 1010200300.png" := by decide
  have hcat : "#REDIRECT [[" ++ "File:Summon b 1010200300.png" ++ "]]" =
      "#REDIRECT [[File:Summon b 1010200300.png]]" := by decide
  simp only [hdrop, hcat]
  rw [if_pos (by decide :
    ("" : String) ≠ "#REDIRECT [[File:Summon b 1010200300.png]]")]

/-- Witness for C1: the scenario at digest `"D"`, size 7, empty state. -/
theorem check_image_lower_id_redirect_witness :
    check_image
      { search := [⟨"File:Summon b 1010200300.png", "Summon b 1010200300.png",
          "https://gbf.wiki/images/s.png"⟩]
        fetch := fun v =>
          if v = "http://prd-game-a-granbluefantasy.akamaized.net/assets_en/img/sp/assets/summon/b/1010200300.png"
          then (true, "D", 7) else (false, "", 0)
        backlinksOf := fun _ => []
        uploadResp := fun _ => .ok } 1 [] "Summon b 1010200301.png" "D" 7 [] =
      some (.resolvedName "Summon b 1010200300.png",
        [("File:Summon b 1010200301.png",
          "#REDIRECT [[File:Summon b 1010200300.png]]")],
        [Act.fetch
          "http://prd-game-a-granbluefantasy.akamaized.net/assets_en/img/sp/assets/summon/b/1010200300.png",
         Act.save "File:Summon b 1010200301.png"
          "#REDIRECT [[File:Summon b 1010200300.png]]"]) :=
  check_image_lower_id_redirect _ 1 [] "D" 7 [] "https://gbf.wiki/images/s.png"
    rfl (by decide) (by decide) rfl

/-- Claim C9: when the single non-archived match fits the
`File:(Summon|Weapon) section number.ext` pattern with a lower embedded
number but the verification re-fetch does not confirm `(digest, size)`,
`check_image` does not skip: it moves the existing file to the new canonical
name (leaving a redirect at the old title), repairs the old title's redirect
backlinks, and returns the new canonical name. -/
theorem check_image_lower_id_fallthrough (env : WikiEnv) (fuel : Nat)
    (st : PageMap) (name sha1 : String) (size : Nat)
    (other_names : List String) (dupe : WikiFile)
    (kind sec digits ext : String) (fdigits : List Char)
    (st2 : PageMap) (acts2 : List Act)
    (hdup : env.search.filter (fun f => !strContains f.url "/archive/") = [dupe])
    (htitle : ¬ (pyLower (pyStrip dupe.page_title) =
      pyLower (replaceUnd (pyCapitalize name))))
    (hparse : parseDupeName dupe.name = some (kind, sec, digits, ext))
    (hfirst : firstDigits ("File:" ++ pyCapitalize name).data = some fdigits)
    (hnum : digitsToNat digits.data < digitsToNat fdigits)
    (hfetch : ¬ ((env.fetch (dupe_fetch_url kind sec digits ext)).1 = true ∧
      (env.fetch (dupe_fetch_url kind sec digits ext)).2.1 = sha1 ∧
      (env.fetch (dupe_fetch_url kind sec digits ext)).2.2 = size))
    (hinv : investigate_backlinks env fuel
        (movePage st dupe.name ("File:" ++ pyCapitalize name))
        (env.backlinksOf dupe.name) dupe.name ("File:" ++ pyCapitalize name) =
      some (st2, acts2)) :
    check_image env fuel st name sha1 size other_names =
      some (.resolvedName (pyCapitalize name), st2,
        Act.fetch (dupe_fetch_url kind sec digits ext) ::
          Act.move dupe.name ("File:" ++ pyCapitalize name) :: acts2) ∧
    getText (movePage st dupe.name ("File:" ++ pyCapitalize name)) dupe.name =
      some ("#REDIRECT [[" ++ ("File:" ++ pyCapitalize name) ++ "]]") := by
  constructor
  · rw [check_image]
    simp only [hdup, List.length_cons, List.length_nil, Nat.lt_irrefl,
      if_false, ite_false, htitle, hparse, hfirst]
    rw [if_pos hnum, if_neg hfetch]
    rw [move_dupe, hinv]
    simp [prependActs, strDrop_file]
  · rw [movePage]
    exact getText_savePage_self _ _ _

/-- Witness for C9: the C1 scenario with a failing verification re-fetch
falls through to the move. -/
theorem check_image_lower_id_fallthrough_witness :
    check_image
      { search := [⟨"File:Summon b 1010200300.png", "Summon b 1010200300.png",
          "https://gbf.wiki/images/s.png"⟩]
        fetch := fun _ => (false, "", 0)
        backlinksOf := fun _ => []
        uploadResp := fun _ => .ok } 1 [] "Summon b 1010200301.png" "D" 7 [] =
      some (.resolvedName "Summon b 1010200301.png",
        movePage [] "File:Summon b 1010200300.png" "File:Summon b 1010200301.png",
        [Act.fetch (dupe_fetch_url "Summon" "b" "1010200300" "png"),
         Act.move "File:Summon b 1010200300.png" "File:Summon b 1010200301.png"]) := by
  have h := check_image_lower_id_fallthrough
    { search := [⟨"File:Summon b 1010200300.png", "Summon b 1010200300.png",
        "https://gbf.wiki/images/s.png"⟩]
      fetch := fun _ => (false, "", 0)
      backlinksOf := fun _ => []
      uploadResp := fun _ => .ok } 1 [] "Summon b 1010200301.png" "D" 7 []
    ⟨"File:Summon b 1010200300.png", "Summon b 1010200300.png",
      "https://gbf.wiki/images/s.png"⟩
    "Summon" "b" "1010200300" "png" "1010200301".data
    (movePage [] "File:Summon b 1010200300.png"
      ("File:" ++ pyCapitalize "Summon b 1010200301.png")) []
    (by decide) (by decide) (by decide) (by decide) (by decide)
    (by decide) rfl
  exact h.1.trans (by decide)

/-- String append is associative (via the underlying character lists). -/
theorem strAppend_assoc (a b c : String) : a ++ b ++ c = a ++ (b ++ c) := by
  apply String.ext
  simp [String.data_append, List.append_assoc]

/-- Claim C7: for a melee weapon with `id=1010000`, the `wsp` section of the
weapon descriptor table generates exactly the two sprite tasks with
suffixes "1" and "2" at the `cjs` path segment — not the generic
per-version sprite tasks. -/
theorem melee_wsp_tasks (asset_name : String)
    (p : SectionParams) (hp : ("wsp", p) ∈ weapon_paths) :
    tasks_for_section "weapon" (some "melee") asset_name "1010000" "wsp" p =
      [⟨"http://prd-game-a-granbluefantasy.akamaized.net/assets_en/img/sp/cjs/1010000_1.png",
        "Weapon sp 1010000 1.png", [asset_name ++ " sprite1.png"],
        ["Weapon Images", "Weapon Sprites"]⟩,
       ⟨"http://prd-game-a-granbluefantasy.akamaized.net/assets_en/img/sp/cjs/1010000_2.png",
        "Weapon sp 1010000 2.png", [asset_name ++ " sprite2.png"],
        ["Weapon Images", "Weapon Sprites"]⟩] := by
  have hpv : p = ⟨"png", "_sprite", ["", "_02", "_03"], ["A", "B", "C"],
      ["Weapon Images", "Weapon Sprites"]⟩ := by
    simp only [weapon_paths, List.mem_cons, List.not_mem_nil, or_false,
      Prod.mk.injEq] at hp
    rcases hp with ⟨h, hv⟩ | ⟨h, hv⟩ | ⟨h, hv⟩ | ⟨h, hv⟩ | ⟨h, hv⟩ <;>
      first
        | exact hv
        | exact absurd h (by decide)
  subst hpv
  rw [tasks_for_section, if_pos ⟨rfl, rfl, rfl⟩, melee_tasks]
  simp only [List.map_cons, List.map_nil]
  have hu1 : cdnBase ++ "img/sp/cjs/" ++ "1010000" ++ "_1" ++ "." ++ "png" =
      "http://prd-game-a-granbluefantasy.akamaized.net/assets_en/img/sp/cjs/1010000_1.png" := by
    decide
  have hu2 : cdnBase ++ "img/sp/cjs/" ++ "1010000" ++ "_2" ++ "." ++ "png" =
      "http://prd-game-a-granbluefantasy.akamaized.net/assets_en/img/sp/cjs/1010000_2.png" := by
    decide
  have ht1 : pyCapitalize "weapon" ++ " sp " ++ "1010000" ++ " " ++ "1" ++ "." ++ "png" =
      "Weapon sp 1010000 1.png" := by decide
  have ht2 : pyCapitalize "weapon" ++ " sp " ++ "1010000" ++ " " ++ "2" ++ "." ++ "png" =
      "Weapon sp 1010000 2.png" := by decide
  have ho1 : asset_name ++ " sprite" ++ "1" ++ "." ++ "png" = asset_name ++ " sprite1.png" := by
    rw [strAppend_assoc, strAppend_assoc, strAppend_assoc]
    rw [show (" sprite" ++ ("1" ++ ("." ++ "png")) : String) = " sprite1.png" by decide]
  have ho2 : asset_name ++ " sprite" ++ "2" ++ "." ++ "png" = asset_name ++ " sprite2.png" := by
    rw [strAppend_assoc, strAppend_assoc, strAppend_assoc]
    rw [show (" sprite" ++ ("2" ++ ("." ++ "png")) : String) = " sprite2.png" by decide]
  rw [hu1, hu2, ht1, ht2, ho1, ho2]

/-- Witness for C7: the theorem applied at the weapon table's `wsp` entry
and a concrete page name. -/
theorem melee_wsp_tasks_witness :
    tasks_for_section "weapon" (some "melee") "Ascalon" "1010000" "wsp"
      ⟨"png", "_sprite", ["", "_02", "_03"], ["A", "B", "C"],
        ["Weapon Images", "Weapon Sprites"]⟩ =
      [⟨"http://prd-game-a-granbluefantasy.akamaized.net/assets_en/img/sp/cjs/1010000_1.png",
        "Weapon sp 1010000 1.png", ["Ascalon sprite1.png"],
        ["Weapon Images", "Weapon Sprites"]⟩,
       ⟨"http://prd-game-a-granbluefantasy.akamaized.net/assets_en/img/sp/cjs/1010000_2.png",
        "Weapon sp 1010000 2.png", ["Ascalon sprite2.png"],
        ["Weapon Images", "Weapon Sprites"]⟩] :=
  (melee_wsp_tasks "Ascalon" _ (by decide)).trans (by decide)

/-- Length of a string append. -/
theorem strLen_append (a b : String) : (a ++ b).length = a.length + b.length := by
  show (a ++ b).data.length = a.data.length + b.data.length
  rw [String.data_append, List.length_append]

/-- A string of length zero is empty. -/
theorem str_eq_empty_of_length (s : String) (h : s.length = 0) : s = "" := by
  apply String.ext
  exact List.length_eq_zero.mp h

/-- The labeled alias differs from the unsuffixed alias whenever the
variant's label is nonempty. -/
theorem labeled_ne_unsuffixed (name suf lab sep ext : String) (hlab : lab ≠ "") :
    name ++ suf ++ (sep ++ lab) ++ "." ++ ext ≠ name ++ suf ++ "." ++ ext := by
  intro h
  have hlen := congrArg String.length h
  simp only [strLen_append] at hlen
  have h0 : lab.length = 0 := by omega
  exact hlab (str_eq_empty_of_length lab h0)

/-- Table sanity used by the alias claims: labels parallel the tokens, and a
multi-variant section has no empty label. -/
def sectionOK (p : SectionParams) : Bool :=
  (p.labels.length == p.tokens.length) &&
    (decide (p.tokens.length < 2) || p.labels.all (fun l => !(l == "")))

/-- Every section of every live descriptor table satisfies `sectionOK`. -/
theorem live_tables_sectionOK :
    live_tables.all (fun tbl => tbl.all (fun sec => sectionOK sec.2)) = true := by
  decide

/-- In a `sectionOK` section, a variant index inside the token range only
reads an empty label when the section is single-variant. -/
theorem sectionOK_label_ne (p : SectionParams) (v : Nat)
    (hok : sectionOK p = true) (hv : v < p.tokens.length)
    (hemp : p.labels.getD v "" = "") : p.tokens.length < 2 := by
  rw [sectionOK, Bool.and_eq_true, Bool.or_eq_true] at hok
  obtain ⟨hlen, hrest⟩ := hok
  rcases hrest with h2 | hall
  · exact of_decide_eq_true h2
  · exfalso
    have hlen2 : p.labels.length = p.tokens.length := by
      simpa using hlen
    have hvl : v < p.labels.length := by omega
    have hget : p.labels.getD v "" = p.labels.get ⟨v, hvl⟩ := by
      rw [List.getD_eq_getElem?_getD, List.getElem?_eq_getElem hvl]
      rfl
    have hmem : p.labels.get ⟨v, hvl⟩ ∈ p.labels := List.get_mem _ _ _
    have := List.all_eq_true.mp hall _ hmem
    rw [← hget, hemp] at this
    simp at this

/-- Membership of the unsuffixed alias in the generated alias list is
exactly the code's attachment condition, provided empty labels only occur
in single-variant sections. -/
theorem mem_other_names_unsuffixed (name : String) (p : SectionParams) (v : Nat)
    (hlab : p.labels.getD v "" = "" → p.tokens.length < 2) :
    (name ++ p.suffix ++ "." ++ p.ext) ∈ other_names_for name p v ↔
      (p.tokens.length < 2 ∨ p.labels.getD v "" = "A") := by
  rw [other_names_for]
  constructor
  · intro hmem
    rcases List.mem_append.mp hmem with h | h
    · by_cases hc : p.tokens.length < 2 ∨ p.labels.getD v "" = "A"
      · exact hc
      · rw [if_neg hc] at h
        simp at h
    · by_cases h2 : 1 < p.tokens.length
      · rw [if_pos h2] at h
        simp only [List.mem_singleton] at h
        by_cases hemp : p.labels.getD v "" = ""
        · exact absurd (hlab hemp) (by omega)
        · exact absurd h.symm
            (labeled_ne_unsuffixed name p.suffix (p.labels.getD v "")
              (if p.suffix = "" ∧ p.labels.getD v "" ≠ "" then " " else "")
              p.ext hemp)
      · rw [if_neg h2] at h
        simp at h
  · intro hc
    exact List.mem_append.mpr (Or.inl (by rw [if_pos hc]; exact List.mem_singleton.mpr rfl))

/-- Claim C6: for every section of every live descriptor table processed by
the generic derivation loop and every in-range variant index, the
unsuffixed friendly alias (display name + human suffix, no variant label)
is attached exactly when the section has fewer than two variants or the
variant's label is the primary marker `"A"`; in multi-variant sections
every variant additionally gets the labeled alias; hence every
single-variant section's task has a friendly alias. -/
theorem alias_attachment (tbl : List (String × SectionParams))
    (sec : String × SectionParams) (v : Nat) (name : String)
    (htbl : tbl ∈ live_tables) (hsec : sec ∈ tbl)
    (hv : v < sec.2.tokens.length) :
    ((name ++ sec.2.suffix ++ "." ++ sec.2.ext) ∈ other_names_for name sec.2 v ↔
      (sec.2.tokens.length < 2 ∨ sec.2.labels.getD v "" = "A")) ∧
    (1 < sec.2.tokens.length →
      (name ++ sec.2.suffix ++
        ((if sec.2.suffix = "" ∧ sec.2.labels.getD v "" ≠ "" then " " else "") ++
          sec.2.labels.getD v "") ++ "." ++ sec.2.ext) ∈
        other_names_for name sec.2 v) ∧
    (sec.2.tokens.length < 2 → other_names_for name sec.2 v ≠ []) := by
  have hok : sectionOK sec.2 = true := by
    have h1 := List.all_eq_true.mp live_tables_sectionOK tbl htbl
    exact List.all_eq_true.mp h1 sec hsec
  have hlab := sectionOK_label_ne sec.2 v hok hv
  refine ⟨mem_other_names_unsuffixed name sec.2 v hlab, ?_, ?_⟩
  · intro h2
    rw [other_names_for]
    exact List.mem_append.mpr (Or.inr (by rw [if_pos h2]; exact List.mem_singleton.mpr rfl))
  · intro h2
    rw [other_names_for, if_pos (Or.inl h2), if_neg (by omega)]
    simp

/-- Witness for C6: the `b` section of the weapon table, variant 0 (label
`"A"`), page name `"Ascalon"`. -/
theorem alias_attachment_witness :
    (("Ascalon" ++ "" ++ "." ++ "png") ∈
        other_names_for "Ascalon"
          ⟨"png", "", ["", "_02", "_03"], ["A", "B", "C"],
            ["Weapon Images", "Full Weapon Images"]⟩ 0 ↔
      ((["", "_02", "_03"] : List String).length < 2 ∨
        (["A", "B", "C"] : List String).getD 0 "" = "A")) ∧
    (1 < (["", "_02", "_03"] : List String).length →
      ("Ascalon" ++ "" ++
        ((if ("" : String) = "" ∧ (["A", "B", "C"] : List String).getD 0 "" ≠ ""
          then " " else "") ++ (["A", "B", "C"] : List String).getD 0 "") ++
        "." ++ "png") ∈
        other_names_for "Ascalon"
          ⟨"png", "", ["", "_02", "_03"], ["A", "B", "C"],
            ["Weapon Images", "Full Weapon Images"]⟩ 0) ∧
    ((["", "_02", "_03"] : List String).length < 2 →
      other_names_for "Ascalon"
        ⟨"png", "", ["", "_02", "_03"], ["A", "B", "C"],
          ["Weapon Images", "Full Weapon Images"]⟩ 0 ≠ []) :=
  alias_attachment weapon_paths
    ("b", ⟨"png", "", ["", "_02", "_03"], ["A", "B", "C"],
      ["Weapon Images", "Full Weapon Images"]⟩) 0 "Ascalon"
    (by decide) (by decide) (by decide)

/-! ## The backlink walk (claim C8) -/

/-- Reflexive-transitive reachability along the wiki's redirect backlink
edges. -/
inductive ReachF (bf : String → List String) : String → String → Prop
  | refl (a : String) : ReachF bf a a
  | step {a b c : String} : ReachF bf a b → c ∈ bf b → ReachF bf a c

/-- First-step decomposition of reachability. -/
theorem reachF_head (bf : String → List String) {a p : String}
    (h : ReachF bf a p) : p = a ∨ ∃ d, d ∈ bf a ∧ ReachF bf d p := by
  induction h with
  | refl => exact Or.inl rfl
  | step hab hc ih =>
    rcases ih with rfl | ⟨d, hd, hdb⟩
    · exact Or.inr ⟨_, hc, ReachF.refl _⟩
    · exact Or.inr ⟨d, hd, ReachF.step hdb hc⟩

/-- The walk on an empty backlink list returns immediately at any depth
budget. -/
theorem inv_go_nil (env : WikiEnv) (fuel : Nat) (st : PageMap) (s t : String) :
    investigate_backlinks_go env fuel st [] s t = some (st, []) := by
  cases fuel <;> rfl

/-- Unfolding of the walk on a nonempty backlink list. -/
theorem inv_go_cons (env : WikiEnv) (fuel : Nat) (st : PageMap) (b : String)
    (rest : List String) (s t : String) :
    investigate_backlinks_go env (fuel + 1) st (b :: rest) s t =
      (match investigate_backlinks_go env fuel (backlink_step st b t).1
          (env.backlinksOf b) b t with
      | none => none
      | some (st2, acts2) =>
        match investigate_backlinks_go env (fuel + 1) st2 rest s t with
        | none => none
        | some (st3, acts3) =>
          some (st3, (backlink_step st b t).2 ++ acts2 ++ acts3)) := rfl

/-- The cons unfolding in `Option.bind` form, convenient for rewriting. -/
theorem inv_go_cons_bind (env : WikiEnv) (fuel : Nat) (st : PageMap)
    (b : String) (rest : List String) (s t : String) :
    investigate_backlinks_go env (fuel + 1) st (b :: rest) s t =
      (investigate_backlinks_go env fuel (backlink_step st b t).1
          (env.backlinksOf b) b t).bind
        (fun r1 => (investigate_backlinks_go env (fuel + 1) r1.1 rest s t).bind
          (fun r2 => some (r2.1, (backlink_step st b t).2 ++ r1.2 ++ r2.2))) := by
  rw [inv_go_cons]
  cases investigate_backlinks_go env fuel (backlink_step st b t).1
      (env.backlinksOf b) b t with
  | none => rfl
  | some r1 =>
    obtain ⟨stA, actsA⟩ := r1
    dsimp only
    simp only [Option.some_bind]
    cases investigate_backlinks_go env (fuel + 1) stA rest s t with
    | none => rfl
    | some r2 =>
      obtain ⟨stB, actsB⟩ := r2
      rfl

/-- A page either keeps its text through `backlink_step` or now carries the
direct redirect. -/
theorem backlink_step_text (st : PageMap) (b target p : String) :
    getText (backlink_step st b target).1 p = getText st p ∨
      getText (backlink_step st b target).1 p =
        some ("#REDIRECT [[" ++ target ++ "]]") := by
  rw [backlink_step]
  by_cases h1 : pyStartsWith ((getText st b).getD "") "#REDIRECT [[File:" = true
  · rw [if_pos h1]
    by_cases h2 : ("#REDIRECT [[" ++ target ++ "]]") ≠ (getText st b).getD ""
    · rw [if_pos h2]
      exact getText_savePage_cases st b _ p
    · rw [if_neg h2]
      exact Or.inl rfl
  · rw [if_neg h1]
    exact Or.inl rfl

/-- After the walk visits a page, a file-redirect text at that page always
means the direct redirect to the target. -/
def GoodRedirect (target : String) (st : PageMap) (p : String) : Prop :=
  pyStartsWith ((getText st p).getD "") "#REDIRECT [[File:" = true →
    getText st p = some ("#REDIRECT [[" ++ target ++ "]]")

/-- Applying `backlink_step` establishes `GoodRedirect` at the visited backlink. -/
theorem backlink_step_good (st : PageMap) (b target : String) :
    GoodRedirect target (backlink_step st b target).1 b := by
  rw [backlink_step]
  by_cases h1 : pyStartsWith ((getText st b).getD "") "#REDIRECT [[File:" = true
  · rw [if_pos h1]
    by_cases h2 : ("#REDIRECT [[" ++ target ++ "]]") ≠ (getText st b).getD ""
    · rw [if_pos h2]
      intro _
      exact getText_savePage_self st b _
    · rw [if_neg h2]
      intro _
      push_neg at h2
      cases hopt : getText st b with
      | none =>
        rw [hopt] at h1
        exact absurd h1 (by decide)
      | some x =>
        rw [hopt] at h2
        simp only [Option.getD_some] at h2
        exact (congrArg some h2).symm
  · rw [if_neg h1]
    intro hcontra
    exact absurd hcontra h1

/-- Through a successful walk, every page either keeps its text or ends up
carrying the direct redirect to the target. -/
theorem inv_go_text_cases (env : WikiEnv) (t : String) :
    ∀ fuel bls st s st2 acts,
      investigate_backlinks_go env fuel st bls s t = some (st2, acts) →
      ∀ p, getText st2 p = getText st p ∨
        getText st2 p = some ("#REDIRECT [[" ++ t ++ "]]") := by
  intro fuel
  induction fuel with
  | zero =>
    intro bls st s st2 acts h p
    cases bls with
    | nil =>
      rw [inv_go_nil] at h
      cases h
      exact Or.inl rfl
    | cons b rest => cases h
  | succ fuel ih =>
    intro bls
    induction bls with
    | nil =>
      intro st s st2 acts h p
      rw [inv_go_nil] at h
      cases h
      exact Or.inl rfl
    | cons b rest ihl =>
      intro st s st2 acts h p
      rw [inv_go_cons_bind] at h
      cases h1 : investigate_backlinks_go env fuel (backlink_step st b t).1
          (env.backlinksOf b) b t with
      | none => rw [h1] at h; cases h
      | some pr =>
        obtain ⟨stA, actsA⟩ := pr
        rw [h1] at h
        simp only [Option.some_bind] at h
        cases h2 : investigate_backlinks_go env (fuel + 1) stA rest s t with
        | none => rw [h2] at h; cases h
        | some pr2 =>
          obtain ⟨stB, actsB⟩ := pr2
          rw [h2] at h
          simp only [Option.some_bind, Option.some.injEq, Prod.mk.injEq] at h
          have hst : stB = st2 := h.1
          subst hst
          rcases ihl stA s stB actsB h2 p with hB | hB
          · rcases ih (env.backlinksOf b) (backlink_step st b t).1 b stA actsA h1 p
              with hA | hA
            · rcases backlink_step_text st b t p with hS | hS
              · exact Or.inl (by rw [hB, hA, hS])
              · exact Or.inr (by rw [hB, hA, hS])
            · exact Or.inr (by rw [hB, hA])
          · exact Or.inr hB

/-- A successful walk preserves `GoodRedirect`. -/
theorem inv_go_preserves_good (env : WikiEnv) (t : String)
    {fuel : Nat} {bls : List String} {st : PageMap} {s : String}
    {st2 : PageMap} {acts : List Act}
    (h : investigate_backlinks_go env fuel st bls s t = some (st2, acts))
    (p : String) (hp : GoodRedirect t st p) : GoodRedirect t st2 p := by
  rcases inv_go_text_cases env t fuel bls st s st2 acts h p with heq | hnew
  · rw [GoodRedirect, heq]
    exact hp
  · intro _
    exact hnew

/-- With a rank function strictly decreasing along backlink edges, the walk
terminates whenever the budget exceeds the rank of every starting node. -/
theorem inv_go_terminates (env : WikiEnv) (r : String → Nat)
    (hr : ∀ x y, y ∈ env.backlinksOf x → r y < r x) :
    ∀ fuel bls st s t, (∀ b ∈ bls, r b < fuel) →
      (investigate_backlinks_go env fuel st bls s t).isSome := by
  intro fuel
  induction fuel with
  | zero =>
    intro bls st s t hb
    cases bls with
    | nil => rw [inv_go_nil]; rfl
    | cons b rest => exact absurd (hb b (List.mem_cons_self b rest)) (Nat.not_lt_zero _)
  | succ fuel ih =>
    intro bls
    induction bls with
    | nil =>
      intro st s t hb
      rw [inv_go_nil]
      rfl
    | cons b rest ihl =>
      intro st s t hb
      rw [inv_go_cons_bind]
      have hb0 : r b < fuel + 1 := hb b (List.mem_cons_self b rest)
      have hd : ∀ d ∈ env.backlinksOf b, r d < fuel := by
        intro d hdm
        exact Nat.lt_of_lt_of_le (hr b d hdm) (Nat.lt_succ_iff.mp hb0)
      have h1 := ih (env.backlinksOf b) (backlink_step st b t).1 b t hd
      cases hh1 : investigate_backlinks_go env fuel (backlink_step st b t).1
          (env.backlinksOf b) b t with
      | none => rw [hh1] at h1; simp at h1
      | some pr =>
        obtain ⟨stA, actsA⟩ := pr
        have h2 := ihl stA s t (fun b' hb' => hb b' (List.mem_cons_of_mem b hb'))
        cases hh2 : investigate_backlinks_go env (fuel + 1) stA rest s t with
        | none => rw [hh2] at h2; simp at h2
        | some pr2 =>
          simp only [Option.some_bind]
          rw [hh2]
          rfl

/-- After a successful walk, every page transitively reachable from the
starting backlinks satisfies `GoodRedirect`. -/
theorem inv_go_reach_good (env : WikiEnv) (t : String) :
    ∀ fuel bls st s st2 acts,
      investigate_backlinks_go env fuel st bls s t = some (st2, acts) →
      ∀ a p, a ∈ bls → ReachF env.backlinksOf a p → GoodRedirect t st2 p := by
  intro fuel
  induction fuel with
  | zero =>
    intro bls st s st2 acts h a p ha
    cases bls with
    | nil => cases ha
    | cons b rest => cases h
  | succ fuel ih =>
    intro bls
    induction bls with
    | nil =>
      intro st s st2 acts h a p ha
      cases ha
    | cons b rest ihl =>
      intro st s st2 acts h a p ha hreach
      rw [inv_go_cons_bind] at h
      cases h1 : investigate_backlinks_go env fuel (backlink_step st b t).1
          (env.backlinksOf b) b t with
      | none => rw [h1] at h; cases h
      | some pr =>
        obtain ⟨stA, actsA⟩ := pr
        rw [h1] at h
        simp only [Option.some_bind] at h
        cases h2 : investigate_backlinks_go env (fuel + 1) stA rest s t with
        | none => rw [h2] at h; cases h
        | some pr2 =>
          obtain ⟨stB, actsB⟩ := pr2
          rw [h2] at h
          simp only [Option.some_bind, Option.some.injEq, Prod.mk.injEq] at h
          have hst : stB = st2 := h.1
          subst hst
          rcases List.mem_cons.mp ha with rfl | harest
          · rcases reachF_head env.backlinksOf hreach with rfl | ⟨d, hd, hreach2⟩
            · exact inv_go_preserves_good env t h2 p
                (inv_go_preserves_good env t h1 p (backlink_step_good st p t))
            · exact inv_go_preserves_good env t h2 p
                (ih (env.backlinksOf a) (backlink_step st a t).1 a stA actsA h1
                  d p hd hreach2)
          · exact ihl stA s stB actsB h2 a p harest hreach

/-- A one-node backlink graph with a self-loop: the malformed-wiki redirect
cycle. -/
def cycleEnv : WikiEnv :=
  { search := []
    fetch := fun _ => (false, "", 0)
    backlinksOf := fun _ => ["CycA"]
    uploadResp := fun _ => .ok }

/-- On the cyclic graph the walk exhausts every recursion-depth budget: the
source has no cycle guard. -/
theorem cycle_no_guard : ∀ fuel st s t,
    investigate_backlinks_go cycleEnv fuel st ["CycA"] s t = none := by
  intro fuel
  induction fuel with
  | zero => intro st s t; rfl
  | succ fuel ih =>
    intro st s t
    rw [inv_go_cons]
    rw [show cycleEnv.backlinksOf "CycA" = ["CycA"] from rfl]
    rw [ih]

/-- Claim C8: on a redirect-backlink graph admitting a rank function that
strictly decreases along edges (the finite acyclic case), the recursive
backlink walk terminates for any budget exceeding the starting ranks, and
rewrites every transitively reachable backlink whose current text begins
with `#REDIRECT [[File:` to redirect directly at the final target — a
depth-first multi-hop walk; and on a cyclic graph the recursion exhausts
every depth budget, because there is no cycle guard. -/
theorem investigate_backlinks_depth_walk (env : WikiEnv) (r : String → Nat)
    (fuel : Nat) (st : PageMap) (backlinks : List String)
    (source target : String)
    (hr : ∀ x y, y ∈ env.backlinksOf x → r y < r x)
    (hf : ∀ b ∈ backlinks, r b < fuel) :
    (∃ st2 acts,
      investigate_backlinks env fuel st backlinks source target =
        some (st2, acts) ∧
      ∀ a p, a ∈ backlinks → ReachF env.backlinksOf a p →
        pyStartsWith ((getText st p).getD "") "#REDIRECT [[File:" = true →
        getText st2 p = some ("#REDIRECT [[" ++ replaceUnd target ++ "]]")) ∧
    (∀ fuel2 st2 source2 target2,
      investigate_backlinks cycleEnv fuel2 st2 ["CycA"] source2 target2 =
        none) := by
  constructor
  · have hs := inv_go_terminates env r hr fuel backlinks st
      (replaceUnd source) (replaceUnd target) hf
    cases hres : investigate_backlinks_go env fuel st backlinks
        (replaceUnd source) (replaceUnd target) with
    | none => rw [hres] at hs; cases hs
    | some pr =>
      obtain ⟨st2, acts⟩ := pr
      refine ⟨st2, acts, ?_, ?_⟩
      · rw [investigate_backlinks, hres]
      · intro a p ha hreach hpre
        have hGood := inv_go_reach_good env (replaceUnd target) fuel backlinks
          st (replaceUnd source) st2 acts hres a p ha hreach
        rcases inv_go_text_cases env (replaceUnd target) fuel backlinks st
            (replaceUnd source) st2 acts hres p with heq | hnew
        · apply hGood
          rw [heq]
          exact hpre
        · exact hnew
  · intro fuel2 st2 s2 t2
    rw [investigate_backlinks]
    exact cycle_no_guard fuel2 st2 _ _

/-- Witness for C8: a single backlink `"B1"` holding a file redirect, an
edge-free graph ranked by the zero function, budget 1. -/
theorem investigate_backlinks_depth_walk_witness :
    (∃ st2 acts,
      investigate_backlinks
        { search := []
          fetch := fun _ => (false, "", 0)
          backlinksOf := fun _ => []
          uploadResp := fun _ => .ok } 1
        [("B1", "#REDIRECT [[File:Old.png]]")] ["B1"] "File:Old.png"
        "File:New.png" = some (st2, acts) ∧
      ∀ a p, a ∈ ["B1"] →
        ReachF (fun _ => ([] : List String)) a p →
        pyStartsWith
          ((getText [("B1", "#REDIRECT [[File:Old.png]]")] p).getD "")
          "#REDIRECT [[File:" = true →
        getText st2 p = some ("#REDIRECT [[" ++ replaceUnd "File:New.png" ++ "]]")) ∧
    (∀ fuel2 st2 source2 target2,
      investigate_backlinks cycleEnv fuel2 st2 ["CycA"] source2 target2 =
        none) :=
  investigate_backlinks_depth_walk
    { search := []
      fetch := fun _ => (false, "", 0)
      backlinksOf := fun _ => []
      uploadResp := fun _ => .ok } (fun _ => 0) 1
    [("B1", "#REDIRECT [[File:Old.png]]")] ["B1"] "File:Old.png" "File:New.png"
    (fun _ y h => absurd h (List.not_mem_nil y))
    (fun _ _ => Nat.zero_lt_one)

end GbfUploader
